import Mathlib

/-!
Verification of the conversation/message backend (`src/backend/src/backend/main.py`).

The handlers in `main.py` are embedded as pure functions over an explicit
`Store` state.  The SQLModel layer (`models.py` / `database.py`) is not part
of the sources; following the specification, the store assigns fresh ids on
creation and assigns `created_at` monotonically in insertion order.  The
OpenAI client is embedded as an explicit adapter function parameter.
-/

namespace Backend

/-- A conversation record.  `title` is `Option String` because the Python
model makes the title optional; Python treats both `None` and `""` as falsy
in `if not conversation.title`. -/
structure Conversation where
  id : Nat
  title : Option String
  deriving Repr, DecidableEq

/-- A message record.  Modelled from the spec: `id` is assigned by the store
on creation and `created_at` is a timestamp monotonically assigned in
insertion order (the SQLModel `models.py` defining these defaults is not in
the sources). -/
structure Message where
  id : Nat
  conversation_id : Nat
  role : String
  content : String
  created_at : Nat
  deriving Repr, DecidableEq

/-- The relational store plus the id/timestamp allocators.  Modelled from the
spec: the database session of `database.py` is not in the sources. -/
structure Store where
  conversations : List Conversation
  messages : List Message
  nextConvId : Nat
  nextMsgId : Nat
  nextTime : Nat
  deriving Repr

/-- Python truthiness of an optional string: `None` and `""` are falsy. -/
def strFalsy : Option String → Bool
  | none => true
  | some s => s = ""

/-- An HTTP error raised by `HTTPException(status_code=..., detail=...)`. -/
structure HTTPError where
  status : Nat
  detail : String
  deriving Repr, DecidableEq

/-- The 404 error every handler raises for a missing conversation. -/
def notFound : HTTPError := ⟨404, "Conversation not found"⟩

/-- `session.get(Conversation, conversation_id)`: primary-key lookup. -/
def findConv (s : Store) (cid : Nat) : Option Conversation :=
  s.conversations.find? (fun c => c.id = cid)

/-- Replace the stored conversation with the given id (a committed update). -/
def updateConv (s : Store) (c : Conversation) : Store :=
  { s with conversations := s.conversations.map (fun x => if x.id = c.id then c else x) }

/-- `create_conversation` (main.py lines 41-56): persist the conversation,
then if the title is empty/absent rewrite it to `"Conversation {id}"` and
persist again; return the final stored record. -/
def create_conversation (s : Store) (title : Option String) : Conversation × Store :=
  let c : Conversation := { id := s.nextConvId, title := title }
  let s1 : Store :=
    { s with conversations := s.conversations ++ [c], nextConvId := s.nextConvId + 1 }
  if strFalsy c.title then
    let c2 : Conversation := { c with title := some ("Conversation " ++ toString c.id) }
    (c2, updateConv s1 c2)
  else
    (c, s1)

/-- `read_conversations` (main.py lines 59-66): `offset`/`limit` paging over
the conversations in store order. -/
def read_conversations (s : Store) (offset limit : Nat) : List Conversation :=
  (s.conversations.drop offset).take limit

/-- `read_conversations` called with no query parameters: the Python defaults
are `offset = 0`, `limit = 100`. -/
def read_conversations_default (s : Store) : List Conversation :=
  read_conversations s 0 100

/-- `read_conversation` (main.py lines 69-76): 404 if absent. -/
def read_conversation (s : Store) (cid : Nat) : Except HTTPError Conversation :=
  match findConv s cid with
  | none => .error notFound
  | some c => .ok c

/-- `delete_conversation` (main.py lines 79-88): 404 if absent, otherwise
delete the conversation record and return `{"ok": True}`.  The handler issues
no delete for the conversation's messages. -/
def delete_conversation (s : Store) (cid : Nat) : Except HTTPError Bool × Store :=
  match findConv s cid with
  | none => (.error notFound, s)
  | some _ =>
    (.ok true,
     { s with conversations := s.conversations.filter (fun c => ¬ c.id = cid) })

/-- Strict timestamp order between messages. -/
def timeLt (a b : Message) : Prop := a.created_at < b.created_at

/-- Insert a message into a list sorted by `created_at` (ascending). -/
def insertByTime (m : Message) : List Message → List Message
  | [] => [m]
  | x :: xs =>
    if m.created_at ≤ x.created_at then m :: x :: xs else x :: insertByTime m xs

/-- `ORDER BY created_at` ascending, as an executable sort. -/
def sortByTime (l : List Message) : List Message :=
  l.foldr insertByTime []

/-- The ordered message history of a conversation: the `select ... where
conversation_id = cid order_by created_at` query of main.py lines 99-101 and
120-122. -/
def historyOf (s : Store) (cid : Nat) : List Message :=
  sortByTime (s.messages.filter (fun m => m.conversation_id = cid))

/-- `read_conversation_messages` (main.py lines 91-102): 404 if the
conversation is absent, otherwise the ordered history. -/
def read_conversation_messages (s : Store) (cid : Nat) :
    Except HTTPError (List Message) :=
  match findConv s cid with
  | none => .error notFound
  | some _ => .ok (historyOf s cid)

/-- One `{role, content}` entry of the outbound LLM payload. -/
structure ChatMsg where
  role : String
  content : String
  deriving Repr, DecidableEq

/-- main.py lines 125-127: map a stored message to its LLM payload entry,
coercing any role outside `{"user", "assistant"}` to `"user"`. -/
def toLlm (m : Message) : ChatMsg :=
  { role := if m.role = "user" ∨ m.role = "assistant" then m.role else "user",
    content := m.content }

/-- The raw chat-completion response, with the two extraction routes of
main.py lines 143-149: `attrContent` models `resp.choices[0].message.content`
(attribute access, `none` = raised), `mapContent` models
`resp["choices"][0]["message"]["content"]` (mapping access, `none` = raised),
and `raw` models `str(resp)`. -/
structure LLMResp where
  attrContent : Option String
  mapContent : Option String
  raw : String
  deriving Repr, DecidableEq

/-- main.py lines 142-149: attribute-style access first, then mapping-style,
then the stringified raw response. -/
def extractAssistantText (resp : LLMResp) : String :=
  match resp.attrContent with
  | some t => t
  | none =>
    match resp.mapContent with
    | some t => t
    | none => resp.raw

/-- The LLM adapter: one blocking call from a payload to either a response or
a raised exception message (`Except.error e` models an exception `e`). -/
def LLMAdapter : Type := List ChatMsg → Except String LLMResp

/-- Python truthiness of `API_KEY` in `if openai is not None and API_KEY`:
the key must be present and non-empty. -/
def keyTruthy (key : Option String) : Bool :=
  match key with
  | none => false
  | some s => ¬ s = ""

/-- main.py lines 132-153: compute `assistant_text`.  With no configured key
the adapter is never consulted and the fixed string is used; with a key, an
adapter exception is absorbed into a diagnostic string. -/
def computeAssistantText (key : Option String) (llm : LLMAdapter)
    (payload : List ChatMsg) : String :=
  if keyTruthy key then
    match llm payload with
    | .ok resp => extractAssistantText resp
    | .error e => "[LLM error] " ++ e
  else
    "[LLM not configured]"

/-- `create_message` (main.py lines 105-161): 404 if the conversation is
absent; otherwise persist the user message with `conversation_id` forced to
the path parameter, rebuild the ordered history, compute the assistant text
via the adapter, persist the assistant message, and return both. -/
def create_message (key : Option String) (llm : LLMAdapter) (s : Store)
    (cid : Nat) (m : Message) :
    Except HTTPError (Message × Message) × Store :=
  match findConv s cid with
  | none => (.error notFound, s)
  | some _ =>
    let userMsg : Message :=
      { m with conversation_id := cid, id := s.nextMsgId, created_at := s.nextTime }
    let s1 : Store :=
      { s with messages := s.messages ++ [userMsg],
               nextMsgId := s.nextMsgId + 1, nextTime := s.nextTime + 1 }
    let payload : List ChatMsg := (historyOf s1 cid).map toLlm
    let assistant_text : String := computeAssistantText key llm payload
    let assistantMsg : Message :=
      { id := s1.nextMsgId, conversation_id := cid, role := "assistant",
        content := assistant_text, created_at := s1.nextTime }
    let s2 : Store :=
      { s1 with messages := s1.messages ++ [assistantMsg],
                nextMsgId := s1.nextMsgId + 1, nextTime := s1.nextTime + 1 }
    (.ok (userMsg, assistantMsg), s2)

/-- Store well-formedness: timestamps strictly increase along the insertion
order of `messages`, and stay below the allocator.  This is the spec's
monotone-`created_at` requirement; every operation preserves it. -/
def WF (s : Store) : Prop :=
  s.messages.Pairwise timeLt ∧ ∀ m ∈ s.messages, m.created_at < s.nextTime

/-! ### Helper definitions naming the pieces of a successful `create_message` -/

/-- The persisted user message: the submitted body with `conversation_id`
forced to the path parameter and store-assigned `id`/`created_at`. -/
def userMsgOf (s : Store) (cid : Nat) (m : Message) : Message :=
  { id := s.nextMsgId, conversation_id := cid, role := m.role,
    content := m.content, created_at := s.nextTime }

/-- The store after the user message has been committed. -/
def storeWithUser (s : Store) (cid : Nat) (m : Message) : Store :=
  { s with messages := s.messages ++ [userMsgOf s cid m],
           nextMsgId := s.nextMsgId + 1, nextTime := s.nextTime + 1 }

/-- The `llm_messages` payload handed to the adapter: the reloaded ordered
history (user message included), each entry role-coerced by `toLlm`. -/
def sentPayload (s : Store) (cid : Nat) (m : Message) : List ChatMsg :=
  (historyOf (storeWithUser s cid m) cid).map toLlm

/-- The persisted assistant message. -/
def assistantMsgOf (key : Option String) (llm : LLMAdapter) (s : Store)
    (cid : Nat) (m : Message) : Message :=
  { id := s.nextMsgId + 1, conversation_id := cid, role := "assistant",
    content := computeAssistantText key llm (sentPayload s cid m),
    created_at := s.nextTime + 1 }

/-- The store after both messages have been committed. -/
def storeAfterCreate (key : Option String) (llm : LLMAdapter) (s : Store)
    (cid : Nat) (m : Message) : Store :=
  { s with
      messages := (s.messages ++ [userMsgOf s cid m]) ++ [assistantMsgOf key llm s cid m],
      nextMsgId := s.nextMsgId + 1 + 1, nextTime := s.nextTime + 1 + 1 }

/-! ### Helper lemmas -/

/-- Sorting a list already sorted by `created_at` leaves it unchanged. -/
theorem sortByTime_eq_self {l : List Message}
    (h : l.Pairwise (fun a b => a.created_at ≤ b.created_at)) :
    sortByTime l = l := by
  induction l with
  | nil => rfl
  | cons x xs ih =>
    rcases List.pairwise_cons.mp h with ⟨hhead, hxs⟩
    have hstep : sortByTime (x :: xs) = insertByTime x (sortByTime xs) := rfl
    rw [hstep, ih hxs]
    cases xs with
    | nil => rfl
    | cons y ys =>
      have : x.created_at ≤ y.created_at := hhead y (by simp)
      simp [insertByTime, this]

/-- Under the monotone-timestamp invariant, the `ORDER BY created_at` query
returns the messages of a conversation in insertion order. -/
theorem historyOf_eq_filter {s : Store} (hwf : WF s) (cid : Nat) :
    historyOf s cid = s.messages.filter (fun m => m.conversation_id = cid) := by
  unfold historyOf
  apply sortByTime_eq_self
  have hsub : List.Sublist (s.messages.filter (fun m => m.conversation_id = cid))
      s.messages := List.filter_sublist s.messages
  exact (hwf.1.sublist hsub).imp (fun h => Nat.le_of_lt h)

/-- Explicit description of a successful `create_message` call. -/
theorem create_message_eq (key : Option String) (llm : LLMAdapter) (s : Store)
    (cid : Nat) (m : Message) (c : Conversation) (h : findConv s cid = some c) :
    create_message key llm s cid m =
      (.ok (userMsgOf s cid m, assistantMsgOf key llm s cid m),
       storeAfterCreate key llm s cid m) := by
  simp only [create_message, h, userMsgOf, storeWithUser, sentPayload,
    assistantMsgOf, storeAfterCreate]

/-- A successful `create_message` preserves the monotone-timestamp invariant. -/
theorem WF_storeAfterCreate {s : Store} (key : Option String) (llm : LLMAdapter)
    (cid : Nat) (m : Message) (hwf : WF s) :
    WF (storeAfterCreate key llm s cid m) := by
  refine ⟨?_, ?_⟩
  · simp only [storeAfterCreate, List.append_assoc, List.pairwise_append]
    refine ⟨hwf.1, ?_, ?_⟩
    · simp [List.pairwise_cons, timeLt, userMsgOf, assistantMsgOf]
    · intro a ha b hb
      have hlt : a.created_at < s.nextTime := hwf.2 a ha
      simp only [List.singleton_append, List.mem_cons, List.not_mem_nil,
        or_false] at hb
      rcases hb with hb | hb <;> subst hb <;>
        simp [timeLt, userMsgOf, assistantMsgOf] <;> omega
  · intro x hx
    simp only [storeAfterCreate, List.append_assoc, List.mem_append,
      List.mem_cons, List.not_mem_nil, or_false] at hx
    rcases hx with hx | hx | hx
    · have := hwf.2 x hx
      simp only [storeAfterCreate]
      omega
    · subst hx; simp [storeAfterCreate, userMsgOf]; omega
    · subst hx; simp [storeAfterCreate, assistantMsgOf]

/-! ### Concrete data used by the witnesses -/

/-- A store holding one conversation (id 1) and no messages. -/
def sampleStore : Store :=
  { conversations := [{ id := 1, title := some "T" }], messages := [],
    nextConvId := 2, nextMsgId := 1, nextTime := 0 }

/-- A submitted message body; its `conversation_id` of 99 is ignored by the
handler, which forces the path's conversation id. -/
def sampleMsg : Message :=
  { id := 0, conversation_id := 99, role := "user", content := "Hi",
    created_at := 0 }

/-- An adapter that always raises. -/
def failAdapter : LLMAdapter := fun _ => .error "boom"

/-- An adapter whose response only supports mapping-style extraction. -/
def okAdapter : LLMAdapter := fun _ => .ok ⟨none, some "mapped", "raw"⟩

/-- A submitted message body with a role outside `{"user", "assistant"}`. -/
def sysMsg : Message :=
  { id := 0, conversation_id := 99, role := "system", content := "S",
    created_at := 0 }

/-- A store holding one conversation (id 1) that already owns one message. -/
def sampleStore2 : Store :=
  { conversations := [{ id := 1, title := some "T" }],
    messages := [{ id := 1, conversation_id := 1, role := "user",
                   content := "Hi", created_at := 0 }],
    nextConvId := 2, nextMsgId := 2, nextTime := 1 }

/-- The sample store is well-formed. -/
theorem WF_sampleStore : WF sampleStore := by
  refine ⟨List.Pairwise.nil, ?_⟩
  intro m hm
  simp [sampleStore] at hm

/-! ### More helper lemmas -/

/-- Committing the user message preserves the monotone-timestamp invariant. -/
theorem WF_storeWithUser {s : Store} (cid : Nat) (m : Message) (hwf : WF s) :
    WF (storeWithUser s cid m) := by
  refine ⟨?_, ?_⟩
  · simp only [storeWithUser, List.pairwise_append]
    refine ⟨hwf.1, by simp, ?_⟩
    intro a ha b hb
    simp only [List.mem_singleton] at hb
    subst hb
    have := hwf.2 a ha
    simp [timeLt, userMsgOf]
    omega
  · intro x hx
    simp only [storeWithUser, List.mem_append, List.mem_singleton] at hx
    rcases hx with hx | hx
    · have := hwf.2 x hx
      simp only [storeWithUser]
      omega
    · subst hx; simp [storeWithUser, userMsgOf]

/-- Under the invariant, the payload handed to the adapter is the role-coerced
stored history followed by the role-coerced fresh user message. -/
theorem sentPayload_eq {s : Store} (hwf : WF s) (cid : Nat) (m : Message) :
    sentPayload s cid m =
      (s.messages.filter (fun x => x.conversation_id = cid)).map toLlm
        ++ [toLlm (userMsgOf s cid m)] := by
  unfold sentPayload
  rw [historyOf_eq_filter (WF_storeWithUser cid m hwf)]
  simp [storeWithUser, List.filter_append, userMsgOf]

/-! ### Claim theorems -/

/-- C7: `create_conversation` returns a record whose title is
`"Conversation {id}"` (for the assigned id) when the supplied title is empty
or absent, and the supplied title verbatim when it is non-empty. -/
theorem create_conversation_title_spec (s : Store) (t : Option String) :
    ((t = none ∨ t = some "") →
      (create_conversation s t).1.title =
        some ("Conversation " ++ toString (create_conversation s t).1.id)) ∧
    (∀ x, t = some x → ¬ x = "" → (create_conversation s t).1.title = some x) := by
  constructor
  · rintro (rfl | rfl) <;> simp [create_conversation, strFalsy]
  · rintro x rfl hx
    simp [create_conversation, strFalsy, hx]

/-- Witness for C7 at a concrete store: default title for `none`, verbatim
`"Trip"` otherwise. -/
theorem create_conversation_title_spec_witness :
    (create_conversation sampleStore none).1.title =
      some ("Conversation " ++ toString (create_conversation sampleStore none).1.id) ∧
    (create_conversation sampleStore (some "Trip")).1.title = some "Trip" :=
  ⟨(create_conversation_title_spec sampleStore none).1 (Or.inl rfl),
   (create_conversation_title_spec sampleStore (some "Trip")).2 "Trip" rfl (by decide)⟩

/-- C10: with no query parameters, `read_conversations` pages with
`offset = 0` and `limit = 100`, so at most 100 conversations are returned
even if more exist. -/
theorem read_conversations_default_spec (s : Store) :
    read_conversations_default s = read_conversations s 0 100 ∧
    (read_conversations_default s).length ≤ 100 := by
  refine ⟨rfl, ?_⟩
  simp only [read_conversations_default, read_conversations]
  exact List.length_take_le _ _

/-- C3: on a conversation id absent from the store, `read_conversation`,
`delete_conversation`, `read_conversation_messages` and `create_message` all
fail with the 404 error and leave the store completely unchanged. -/
theorem notfound_no_side_effects (s : Store) (cid : Nat) (m : Message)
    (key : Option String) (llm : LLMAdapter) (h : findConv s cid = none) :
    read_conversation s cid = .error notFound ∧
    delete_conversation s cid = (.error notFound, s) ∧
    read_conversation_messages s cid = .error notFound ∧
    create_message key llm s cid m = (.error notFound, s) := by
  refine ⟨?_, ?_, ?_, ?_⟩ <;>
    simp [read_conversation, delete_conversation, read_conversation_messages,
      create_message, h]

/-- Witness for C3: id 5 is not in the sample store. -/
theorem notfound_no_side_effects_witness :
    read_conversation sampleStore 5 = .error notFound ∧
    delete_conversation sampleStore 5 = (.error notFound, sampleStore) ∧
    read_conversation_messages sampleStore 5 = .error notFound ∧
    create_message none failAdapter sampleStore 5 sampleMsg =
      (.error notFound, sampleStore) :=
  notfound_no_side_effects sampleStore 5 sampleMsg none failAdapter rfl

/-- C1: for an existing conversation, a successful `create_message` appends
exactly two records in order — the submitted user message with its
`conversation_id` overwritten to the path parameter (whatever the body
supplied), then a new `"assistant"` message in the same conversation — and
returns exactly these two persisted messages. -/
theorem create_message_appends_pair (key : Option String) (llm : LLMAdapter)
    (s : Store) (cid : Nat) (m : Message) (c : Conversation)
    (h : findConv s cid = some c) :
    ∃ u a s2, create_message key llm s cid m = (.ok (u, a), s2) ∧
      s2.messages = s.messages ++ [u, a] ∧
      u.conversation_id = cid ∧ u.role = m.role ∧ u.content = m.content ∧
      a.conversation_id = cid ∧ a.role = "assistant" := by
  refine ⟨userMsgOf s cid m, assistantMsgOf key llm s cid m,
    storeAfterCreate key llm s cid m, create_message_eq key llm s cid m c h,
    ?_, rfl, rfl, rfl, rfl, rfl⟩
  simp [storeAfterCreate]

/-- Witness for C1: posting to conversation 1 with a body claiming
`conversation_id = 99`. -/
theorem create_message_appends_pair_witness :
    ∃ u a s2,
      create_message none failAdapter sampleStore 1 sampleMsg = (.ok (u, a), s2) ∧
      s2.messages = sampleStore.messages ++ [u, a] ∧
      u.conversation_id = 1 ∧ u.role = sampleMsg.role ∧
      u.content = sampleMsg.content ∧
      a.conversation_id = 1 ∧ a.role = "assistant" :=
  create_message_appends_pair none failAdapter sampleStore 1 sampleMsg
    { id := 1, title := some "T" } rfl

/-- C5: with no LLM credential configured, `create_message` makes no LLM
call — its outcome is identical for every adapter — and the persisted
assistant message's content is exactly `"[LLM not configured]"`. -/
theorem llm_not_configured_spec (key : Option String) (llm llm2 : LLMAdapter)
    (s : Store) (cid : Nat) (m : Message) (c : Conversation)
    (h : findConv s cid = some c) (hk : keyTruthy key = false) :
    (∃ u a s2, create_message key llm s cid m = (.ok (u, a), s2) ∧
      a.content = "[LLM not configured]") ∧
    create_message key llm s cid m = create_message key llm2 s cid m := by
  constructor
  · exact ⟨userMsgOf s cid m, assistantMsgOf key llm s cid m,
      storeAfterCreate key llm s cid m, create_message_eq key llm s cid m c h,
      by simp [assistantMsgOf, computeAssistantText, hk]⟩
  · rw [create_message_eq key llm s cid m c h,
      create_message_eq key llm2 s cid m c h]
    simp [assistantMsgOf, storeAfterCreate, computeAssistantText, hk]

/-- Witness for C5: unset key, two different adapters. -/
theorem llm_not_configured_spec_witness :
    (∃ u a s2,
      create_message none failAdapter sampleStore 1 sampleMsg = (.ok (u, a), s2) ∧
      a.content = "[LLM not configured]") ∧
    create_message none failAdapter sampleStore 1 sampleMsg =
      create_message none okAdapter sampleStore 1 sampleMsg :=
  llm_not_configured_spec none failAdapter okAdapter sampleStore 1 sampleMsg
    { id := 1, title := some "T" } rfl rfl

/-- C6: when a credential is configured and the adapter raises, the request
still succeeds (no HTTP error) and the persisted assistant content is
`"[LLM error] "` followed by the exception's message. -/
theorem llm_error_spec (k e : String) (llm : LLMAdapter) (s : Store)
    (cid : Nat) (m : Message) (c : Conversation) (h : findConv s cid = some c)
    (hk : ¬ k = "") (he : ∀ p, llm p = .error e) :
    ∃ u a s2, create_message (some k) llm s cid m = (.ok (u, a), s2) ∧
      a.content = "[LLM error] " ++ e := by
  exact ⟨userMsgOf s cid m, assistantMsgOf (some k) llm s cid m,
    storeAfterCreate (some k) llm s cid m,
    create_message_eq (some k) llm s cid m c h,
    by simp [assistantMsgOf, computeAssistantText, keyTruthy, hk, he]⟩

/-- Witness for C6: a configured key and an adapter that always raises. -/
theorem llm_error_spec_witness :
    ∃ u a s2,
      create_message (some "key") failAdapter sampleStore 1 sampleMsg =
        (.ok (u, a), s2) ∧
      a.content = "[LLM error] " ++ "boom" :=
  llm_error_spec "key" "boom" failAdapter sampleStore 1 sampleMsg
    { id := 1, title := some "T" } rfl (by decide) (fun _ => rfl)

/-- C8: reply extraction tries attribute-style access first, then
mapping-style access, then falls back to the stringified raw response; and
whenever the adapter returns a response, the persisted assistant content is
exactly this extraction, so some assistant text is always produced. -/
theorem extract_assistant_text_spec (resp : LLMResp) :
    (∀ t, resp.attrContent = some t → extractAssistantText resp = t) ∧
    (∀ t, resp.attrContent = none → resp.mapContent = some t →
      extractAssistantText resp = t) ∧
    (resp.attrContent = none → resp.mapContent = none →
      extractAssistantText resp = resp.raw) ∧
    (∀ (k : String) (llm : LLMAdapter) (s : Store) (cid : Nat) (m : Message)
      (c : Conversation), ¬ k = "" → (∀ p, llm p = .ok resp) →
      findConv s cid = some c →
      ∃ u a s2, create_message (some k) llm s cid m = (.ok (u, a), s2) ∧
        a.content = extractAssistantText resp) := by
  refine ⟨?_, ?_, ?_, ?_⟩
  · intro t ht; simp [extractAssistantText, ht]
  · intro t h1 h2; simp [extractAssistantText, h1, h2]
  · intro h1 h2; simp [extractAssistantText, h1, h2]
  · intro k llm s cid m c hk hllm h
    exact ⟨userMsgOf s cid m, assistantMsgOf (some k) llm s cid m,
      storeAfterCreate (some k) llm s cid m,
      create_message_eq (some k) llm s cid m c h,
      by simp [assistantMsgOf, computeAssistantText, keyTruthy, hk, hllm]⟩

/-- Witness for C8: a response where only mapping-style access succeeds. -/
theorem extract_assistant_text_spec_witness :
    extractAssistantText ⟨none, some "mapped", "raw"⟩ = "mapped" ∧
    ∃ u a s2,
      create_message (some "key") okAdapter sampleStore 1 sampleMsg =
        (.ok (u, a), s2) ∧
      a.content = extractAssistantText ⟨none, some "mapped", "raw"⟩ :=
  ⟨(extract_assistant_text_spec ⟨none, some "mapped", "raw"⟩).2.1 "mapped" rfl rfl,
   (extract_assistant_text_spec ⟨none, some "mapped", "raw"⟩).2.2.2 "key"
     okAdapter sampleStore 1 sampleMsg { id := 1, title := some "T" }
     (by decide) (fun _ => rfl) rfl⟩

/-- C4: the persisted user message keeps the submitted role verbatim, while
the payload entry built for it carries the submitted role only if it is
`"user"` or `"assistant"` and `"user"` otherwise; the payload handed to the
adapter is the role-coerced ordered history ending with that entry. -/
theorem role_coercion_spec (key : Option String) (llm : LLMAdapter) (s : Store)
    (cid : Nat) (m : Message) (c : Conversation) (hwf : WF s)
    (h : findConv s cid = some c) :
    ∃ u a s2, create_message key llm s cid m = (.ok (u, a), s2) ∧
      u.role = m.role ∧
      ((m.role = "user" ∨ m.role = "assistant") → toLlm u = ⟨m.role, m.content⟩) ∧
      (¬ m.role = "user" → ¬ m.role = "assistant" →
        toLlm u = ⟨"user", m.content⟩) ∧
      a.content = computeAssistantText key llm
        ((s.messages.filter (fun x => x.conversation_id = cid)).map toLlm
          ++ [toLlm u]) := by
  refine ⟨userMsgOf s cid m, assistantMsgOf key llm s cid m,
    storeAfterCreate key llm s cid m, create_message_eq key llm s cid m c h,
    rfl, ?_, ?_, ?_⟩
  · rintro (hr | hr) <;> simp [toLlm, userMsgOf, hr]
  · intro h1 h2; simp [toLlm, userMsgOf, h1, h2]
  · simp only [assistantMsgOf]
    rw [sentPayload_eq hwf]

/-- Witness for C4: a `"system"`-role body posted to conversation 1. -/
theorem role_coercion_spec_witness :
    ∃ u a s2,
      create_message none failAdapter sampleStore 1 sysMsg = (.ok (u, a), s2) ∧
      u.role = sysMsg.role ∧
      ((sysMsg.role = "user" ∨ sysMsg.role = "assistant") →
        toLlm u = ⟨sysMsg.role, sysMsg.content⟩) ∧
      (¬ sysMsg.role = "user" → ¬ sysMsg.role = "assistant" →
        toLlm u = ⟨"user", sysMsg.content⟩) ∧
      a.content = computeAssistantText none failAdapter
        ((sampleStore.messages.filter (fun x => x.conversation_id = 1)).map toLlm
          ++ [toLlm u]) :=
  role_coercion_spec none failAdapter sampleStore 1 sysMsg
    { id := 1, title := some "T" } WF_sampleStore rfl

/-- C9: deleting an existing conversation returns ok and removes only the
conversation record; the handler issues no deletion of its messages, which
are all still in the store afterwards. -/
theorem delete_conversation_frame (s : Store) (cid : Nat) (c : Conversation)
    (h : findConv s cid = some c) :
    (delete_conversation s cid).1 = .ok true ∧
    (delete_conversation s cid).2.conversations =
      s.conversations.filter (fun x => ¬ x.id = cid) ∧
    (delete_conversation s cid).2.messages = s.messages ∧
    findConv (delete_conversation s cid).2 cid = none := by
  have hd : delete_conversation s cid =
      (.ok true,
       { s with conversations := s.conversations.filter (fun x => ¬ x.id = cid) }) := by
    simp [delete_conversation, h]
  rw [hd]
  refine ⟨rfl, rfl, rfl, ?_⟩
  simp only [findConv]
  rw [List.find?_eq_none]
  intro x hx
  simp only [List.mem_filter] at hx
  simpa using hx.2

/-- Witness for C9: deleting conversation 1 leaves its stored message. -/
theorem delete_conversation_frame_witness :
    (delete_conversation sampleStore2 1).1 = .ok true ∧
    (delete_conversation sampleStore2 1).2.conversations =
      sampleStore2.conversations.filter (fun x => ¬ x.id = 1) ∧
    (delete_conversation sampleStore2 1).2.messages = sampleStore2.messages ∧
    findConv (delete_conversation sampleStore2 1).2 1 = none :=
  delete_conversation_frame sampleStore2 1 { id := 1, title := some "T" } rfl

/-- C2: for a well-formed store, reading a conversation's messages returns
exactly the insertion-order sequence (`ORDER BY created_at` agrees with
append order); in particular, after two sequential `create_message` calls on
a conversation with no prior messages, exactly the 4 appended messages are
returned in insertion order. -/
theorem history_ordering_spec (s : Store) (cid : Nat) (c : Conversation)
    (hwf : WF s) (h : findConv s cid = some c) :
    read_conversation_messages s cid =
      .ok (s.messages.filter (fun x => x.conversation_id = cid)) ∧
    (∀ (key1 key2 : Option String) (llm1 llm2 : LLMAdapter) (m1 m2 : Message),
      s.messages.filter (fun x => x.conversation_id = cid) = [] →
      ∃ u1 a1 s1 u2 a2 s2,
        create_message key1 llm1 s cid m1 = (.ok (u1, a1), s1) ∧
        create_message key2 llm2 s1 cid m2 = (.ok (u2, a2), s2) ∧
        read_conversation_messages s2 cid = .ok [u1, a1, u2, a2]) := by
  refine ⟨?_, ?_⟩
  · simp [read_conversation_messages, h, historyOf_eq_filter hwf]
  · intro key1 key2 llm1 llm2 m1 m2 hempty
    have h1 : findConv (storeAfterCreate key1 llm1 s cid m1) cid = some c := h
    have hwf1 : WF (storeAfterCreate key1 llm1 s cid m1) :=
      WF_storeAfterCreate key1 llm1 cid m1 hwf
    have h2 : findConv (storeAfterCreate key2 llm2
        (storeAfterCreate key1 llm1 s cid m1) cid m2) cid = some c := h
    have hwf2 : WF (storeAfterCreate key2 llm2
        (storeAfterCreate key1 llm1 s cid m1) cid m2) :=
      WF_storeAfterCreate key2 llm2 cid m2 hwf1
    refine ⟨_, _, _, _, _, _, create_message_eq key1 llm1 s cid m1 c h,
      create_message_eq key2 llm2 _ cid m2 c h1, ?_⟩
    simp only [read_conversation_messages, h2, historyOf_eq_filter hwf2]
    simp [storeAfterCreate, userMsgOf, assistantMsgOf, List.filter_append, hempty]

/-- Witness for C2: two posts to the initially message-free conversation 1. -/
theorem history_ordering_spec_witness :
    ∃ u1 a1 s1 u2 a2 s2,
      create_message none failAdapter sampleStore 1 sampleMsg = (.ok (u1, a1), s1) ∧
      create_message none failAdapter s1 1 sampleMsg = (.ok (u2, a2), s2) ∧
      read_conversation_messages s2 1 = .ok [u1, a1, u2, a2] :=
  (history_ordering_spec sampleStore 1 { id := 1, title := some "T" }
    WF_sampleStore rfl).2 none none failAdapter failAdapter sampleMsg sampleMsg rfl

end Backend
